import Mathlib

/-!
Verification of the plant-disease client screen
(`src/app/(tabs)/index.tsx` of Senuda004/plant-whisperer-mobile-app).

The screen holds five pieces of React state (`pickedUri`, `loading`,
`prediction`, `confidence`, `gradcamBase64`) and two operations:
`pickImage` (permission request, image picker, result clearing, dispatch)
and `sendToApi` (fetch, JSON parse, status check, state commit, catch-all
error handler).  Both are embedded below as pure functions over an explicit
`AppState`; the asynchronous boundary (the `await fetch`/`res.json()`
suspension inside `sendToApi`) is modelled by splitting the operation into
its synchronous prefix (`pickStep`, which ends at the dispatch of the
request) and its resolution (`resolveFetch`, which runs against whatever
state holds when the response arrives).  JavaScript numbers carried in the
`confidence` field are modelled by `JsNum` (a rational or NaN); JSON fields
whose runtime type the code inspects are modelled by small sum types.
-/

/-- A JavaScript number as it matters to this screen: either NaN or an
exact value (modelled as a rational; all arithmetic the code performs on
confidences is exact at these magnitudes). -/
inductive JsNum where
  | nan : JsNum
  | val (q : ℚ) : JsNum
deriving DecidableEq

/-- The `confidence` field of a parsed response body: absent, a number
(`typeof data.confidence === "number"`, which includes NaN), or present
with a non-numeric runtime type. -/
inductive ConfField where
  | absent : ConfField
  | num (c : JsNum) : ConfField
  | nonNum : ConfField
deriving DecidableEq

/-- The `gradcam_png_base64` field of a parsed response body: absent, a
string, or present with a non-string runtime type. -/
inductive GradField where
  | absent : GradField
  | str (s : String) : GradField
  | nonStr : GradField
deriving DecidableEq

/-- A response body that `res.json()` produced.  Fields follow the wire
contract: `prediction?: string` (with `none` covering both absence and
`null`, which `data.prediction ?? null` collapses), `confidence` and
`gradcam_png_base64` with their runtime-type cases, `error?: string`. -/
structure ApiBody where
  prediction : Option String
  confidence : ConfField
  gradcam_png_base64 : GradField
  error : Option String
deriving DecidableEq

/-- Outcome of the `fetch` + `res.json()` suspension inside `sendToApi`:
either the transport failed (fetch rejected), or a response with status
flag `ok` arrived whose body parsed to `some body`, or to `none` when the
body is not JSON at all (`res.json()` rejects). -/
inductive FetchOutcome where
  | netFail : FetchOutcome
  | resp (ok : Bool) (body : Option ApiBody) : FetchOutcome
deriving DecidableEq

/-- The React state of the screen. -/
structure AppState where
  pickedUri : Option String
  loading : Bool
  prediction : Option String
  confidence : Option JsNum
  gradcamBase64 : Option String
deriving DecidableEq

/-- Screen mount state: `useState(null)` / `useState(false)` everywhere. -/
def initState : AppState :=
  { pickedUri := none, loading := false, prediction := none,
    confidence := none, gradcamBase64 := none }

/-- `const includeGradcam = true;` — the constant flag sent with every
request. -/
def includeGradcam : Bool := true

/-- The JSON request body `{ image: imageBase64, include_gradcam: includeGradcam }`. -/
structure InferenceRequest where
  image : String
  include_gradcam : Bool
deriving DecidableEq

/-- Request construction inside `sendToApi`. -/
def buildRequest (imageBase64 : String) : InferenceRequest :=
  { image := imageBase64, include_gradcam := includeGradcam }

/-- Result of `ImagePicker.launchImageLibraryAsync`: the user cancelled, or
an asset with a `uri` and possibly-absent `base64` payload was picked. -/
inductive PickerResult where
  | canceled : PickerResult
  | picked (uri : String) (base64 : Option String) : PickerResult
deriving DecidableEq

/-- How an invocation of `pickImage` ends, before any network resolution:
permission denied, picker cancelled, asset without base64 bytes (the
"Could not read image as base64." alert), or an inference request was
dispatched. -/
inductive PickOutcome where
  | denied : PickOutcome
  | cancelled : PickOutcome
  | missingData : PickOutcome
  | dispatched : PickOutcome
deriving DecidableEq

/-- What the synchronous part of `pickImage` produced: the state at the
moment control reaches the `await fetch` suspension (or returns earlier),
the outcome category, and the request handed to `fetch`, if any. -/
structure PickRes where
  state : AppState
  outcome : PickOutcome
  request : Option InferenceRequest
deriving DecidableEq

/-- The synchronous prefix of `pickImage` followed by the synchronous
prefix of `sendToApi` (up to and including `setLoading(true)` and the
dispatch of `fetch`).  `granted` is `perm.granted`; `r` is the picker
result.  On denial or cancellation the function returns with the state
untouched.  On a pick it sets `pickedUri` and clears the three result
fields, then either stops with the missing-data alert (no base64) or sets
`loading` and dispatches `buildRequest`. -/
def pickStep (granted : Bool) (r : PickerResult) (s : AppState) : PickRes :=
  if granted = false then ⟨s, .denied, none⟩
  else
    match r with
    | .canceled => ⟨s, .cancelled, none⟩
    | .picked uri b64 =>
      let s1 : AppState :=
        { s with pickedUri := some uri, prediction := none,
                 confidence := none, gradcamBase64 := none }
      match b64 with
      | none => ⟨s1, .missingData, none⟩
      | some b => ⟨{ s1 with loading := true }, .dispatched, some (buildRequest b)⟩

/-- The user-facing category in which `sendToApi` resolves: the catch-all
"Network Error" alert, the "API Error" alert with a message, or a
successful state commit. -/
inductive ApiOutcome where
  | networkError : ApiOutcome
  | serverRejected (msg : String) : ApiOutcome
  | success : ApiOutcome
deriving DecidableEq

/-- `data?.error || "Server error"` for a string-typed `error` field: the
JavaScript `||` falls back both when the field is absent and when it is the
empty string (which is falsy). -/
def errMessage : Option String → String
  | some m => if m = "" then "Server error" else m
  | none => "Server error"

/-- The part of `sendToApi` that runs when the `fetch` settles, applied to
whatever state holds at that moment (the setters are closures over the
live component state).  A rejected fetch, and equally a body that
`res.json()` cannot parse, lands in the `catch` block ("Network Error"
alert).  A parsed non-ok response alerts "API Error" with
`data?.error || "Server error"` and returns without touching the result
fields.  A parsed ok response commits `data.prediction ?? null`, the
confidence if its runtime type is number, and the overlay if it is a
non-empty string.  The `finally` clause clears `loading` on every path. -/
def resolveFetch (f : FetchOutcome) (s : AppState) : AppState × ApiOutcome :=
  match f with
  | .netFail => ({ s with loading := false }, .networkError)
  | .resp _ none => ({ s with loading := false }, .networkError)
  | .resp ok (some d) =>
    if ok = false then
      ({ s with loading := false }, .serverRejected (errMessage d.error))
    else
      ({ s with
          prediction := d.prediction,
          confidence := (match d.confidence with
            | .num c => some c
            | _ => none),
          gradcamBase64 := (match d.gradcam_png_base64 with
            | .str g => if 0 < g.length then some g else none
            | _ => none),
          loading := false }, .success)

/-- The `confidencePct` memo: `null` when the stored confidence is `null`
or NaN; otherwise treat values above 1 as already percentages, values at
most 1 as fractions scaled by 100, and clamp with
`Math.max(0, Math.min(100, c))`. -/
def confidencePct (confidence : Option JsNum) : Option ℚ :=
  match confidence with
  | none => none
  | some .nan => none
  | some (.val c) =>
    some (max 0 (min 100 (if c > 1 then c else c * 100)))

section PrettyLabel

/-!
`prettyLabel` is
`s.replaceAll("_", " ").replace(/\b\w/g, (c) => c.toUpperCase())`.
Strings are modelled as lists of code points so that the regex semantics
can be stated exactly: without the unicode flag, `\w` is `[A-Za-z0-9_]`,
`\b` is a transition between a `\w` and a non-`\w` position, each match of
`\b\w` is a single word character standing at a word start, and
`toUpperCase` on such a character only changes `a`–`z`.
-/

/-- `toUpperCase` restricted to a single code point as it acts on `\w`
matches: shifts `a`–`z` (97–122) down by 32, leaves everything else. -/
def toUpperCP (n : Nat) : Nat :=
  if 97 ≤ n ∧ n ≤ 122 then n - 32 else n

/-- `\w` without the unicode flag: `[A-Za-z0-9_]`. -/
def isWord (n : Nat) : Prop :=
  (97 ≤ n ∧ n ≤ 122) ∨ (65 ≤ n ∧ n ≤ 90) ∨ (48 ≤ n ∧ n ≤ 57) ∨ n = 95

instance isWordDecidable : DecidablePred isWord := fun n => by
  unfold isWord; infer_instance

/-- `replaceAll("_", " ")`: code point 95 becomes 32. -/
def underscoreToSpace (l : List Nat) : List Nat :=
  l.map (fun n => if n = 95 then 32 else n)

/-- `replace(/\b\w/g, c => c.toUpperCase())`: uppercase every word
character whose predecessor is not a word character.  `prevWord` records
whether the preceding code point of the scanned string is a word
character (`false` at the start of the string). -/
def capWordStarts : Bool → List Nat → List Nat
  | _, [] => []
  | prevWord, n :: ns =>
    (if prevWord then n else if isWord n then toUpperCP n else n)
      :: capWordStarts (decide (isWord n)) ns

/-- The whole `prettyLabel` transform. -/
def prettyLabel (l : List Nat) : List Nat :=
  capWordStarts false (underscoreToSpace l)

/-- Code points of a Lean string literal, for concrete examples. -/
def strCP (s : String) : List Nat :=
  s.data.map Char.toNat

lemma isWord_toUpperCP (n : Nat) : isWord (toUpperCP n) ↔ isWord n := by
  unfold toUpperCP isWord
  split <;> omega

lemma toUpperCP_idem (n : Nat) : toUpperCP (toUpperCP n) = toUpperCP n := by
  unfold toUpperCP
  split
  · split <;> omega
  · rfl

lemma toUpperCP_ne_95 (n : Nat) (h : n ≠ 95) : toUpperCP n ≠ 95 := by
  unfold toUpperCP
  split <;> omega

lemma underscoreToSpace_ne_95 (l : List Nat) :
    ∀ n ∈ underscoreToSpace l, n ≠ 95 := by
  intro n hn
  simp only [underscoreToSpace, List.mem_map] at hn
  obtain ⟨m, _, rfl⟩ := hn
  split <;> omega

lemma underscoreToSpace_id (l : List Nat) (h : ∀ n ∈ l, n ≠ 95) :
    underscoreToSpace l = l := by
  induction l with
  | nil => rfl
  | cons n ns ih =>
    have hn : n ≠ 95 := h n (List.mem_cons_self n ns)
    simp only [underscoreToSpace, List.map_cons, if_neg hn]
    have := ih (fun m hm => h m (List.mem_cons_of_mem n hm))
    simpa [underscoreToSpace] using this

lemma capWordStarts_ne_95 (l : List Nat) (p : Bool) (h : ∀ n ∈ l, n ≠ 95) :
    ∀ m ∈ capWordStarts p l, m ≠ 95 := by
  induction l generalizing p with
  | nil => intro m hm; simp [capWordStarts] at hm
  | cons n ns ih =>
    intro m hm
    have hn : n ≠ 95 := h n (List.mem_cons_self n ns)
    simp only [capWordStarts, List.mem_cons] at hm
    rcases hm with hm | hm
    · subst hm
      split
      · exact hn
      · split
        · exact toUpperCP_ne_95 n hn
        · exact hn
    · exact ih (decide (isWord n)) (fun m hm => h m (List.mem_cons_of_mem n hm)) m hm

lemma capWordStarts_idem (l : List Nat) (p : Bool) :
    capWordStarts p (capWordStarts p l) = capWordStarts p l := by
  induction l generalizing p with
  | nil => rfl
  | cons n ns ih =>
    by_cases hp : p
    · subst hp
      simp only [capWordStarts, if_pos rfl]
      exact congrArg _ (ih (decide (isWord n)))
    · have hp' : p = false := by simpa using hp
      subst hp'
      by_cases hw : isWord n
      · have h1 : isWord (toUpperCP n) := (isWord_toUpperCP n).mpr hw
        simp only [capWordStarts, Bool.false_eq_true, if_neg (by simp : ¬False),
          if_pos hw] at *
        simp only [capWordStarts, if_neg (by simp : (false = true) → False),
          if_pos h1, toUpperCP_idem, decide_eq_true_eq]
        rw [decide_eq_true h1, decide_eq_true hw]
        exact congrArg _ (ih true)
      · simp only [capWordStarts, if_neg (by simp : (false = true) → False),
          if_neg hw]
        rw [decide_eq_false hw]
        exact congrArg _ (ih false)

lemma prettyLabel_idem (l : List Nat) :
    prettyLabel (prettyLabel l) = prettyLabel l := by
  unfold prettyLabel
  rw [underscoreToSpace_id _
    (capWordStarts_ne_95 _ _ (underscoreToSpace_ne_95 l))]
  exact capWordStarts_idem _ _

end PrettyLabel

lemma errMessage_ne_empty (o : Option String) : errMessage o ≠ "" := by
  cases o with
  | none => simp [errMessage]
  | some m =>
    simp only [errMessage]
    split
    · simp
    · assumption

/-- Claim C3: confidence normalization.  For every raw confidence value
`c`, if `c > 1` the displayed percentage equals `c` and otherwise equals
`100·c`, clamped to `[0, 100]`; whenever a percentage is produced it lies
in `[0, 100]`; a NaN or absent confidence normalizes to the absent
placeholder, never to `0%`. -/
theorem confidencePct_normalization (c : ℚ) :
    (1 < c → confidencePct (some (.val c)) = some (min 100 c)) ∧
    (c ≤ 1 → confidencePct (some (.val c)) = some (max 0 (c * 100))) ∧
    (∀ q : ℚ, confidencePct (some (.val c)) = some q → 0 ≤ q ∧ q ≤ 100) ∧
    confidencePct (some .nan) = none ∧
    confidencePct (none : Option JsNum) = none ∧
    confidencePct (some .nan) ≠ some 0 ∧
    confidencePct (none : Option JsNum) ≠ some 0 := by
  refine ⟨?_, ?_, ?_, rfl, rfl, by simp [confidencePct], by simp [confidencePct]⟩
  · intro h
    simp only [confidencePct, gt_iff_lt, if_pos h, Option.some.injEq]
    exact max_eq_right (le_min (by norm_num) (le_of_lt (lt_trans zero_lt_one h)))
  · intro h
    simp only [confidencePct, gt_iff_lt, if_neg (not_lt.mpr h), Option.some.injEq]
    have h100 : c * 100 ≤ 100 := by nlinarith
    rw [min_eq_right h100]
  · intro q hq
    simp only [confidencePct, Option.some.injEq] at hq
    subst hq
    exact ⟨le_max_left 0 _, max_le (by norm_num) (min_le_left _ _)⟩

/-- Witness for C3: the spec example `150 → 100` (value above 1, clamped
at the upper bound). -/
theorem confidencePct_normalization_witness :
    confidencePct (some (.val 150)) = some 100 := by
  have h := (confidencePct_normalization 150).1 (by norm_num)
  rw [h]
  norm_num

/-- Claim C4: stale-result suppression.  For every successful pick (one
that is neither cancelled nor permission-denied), the state reached by the
synchronous part of `pickImage` has the label, confidence, and overlay
fields cleared, and the inference request (dispatched exactly when the
asset carries base64 bytes) is issued only from that cleared state. -/
theorem pick_clears_before_dispatch (uri : String) (b64 : Option String)
    (s : AppState) :
    (pickStep true (.picked uri b64) s).state.prediction = none ∧
    (pickStep true (.picked uri b64) s).state.confidence = none ∧
    (pickStep true (.picked uri b64) s).state.gradcamBase64 = none ∧
    (pickStep true (.picked uri b64) s).request = b64.map buildRequest := by
  cases b64 <;> simp [pickStep, buildRequest]

/-- Claim C5: label formatting is a pure, idempotent display transform:
`prettyLabel` (a function of the stored code points only, leaving the
stored raw label untouched) satisfies `prettyLabel (prettyLabel l) =
prettyLabel l` for every string, and formats `"early_blight"` to
`"Early Blight"`. -/
theorem prettyLabel_pure_idempotent :
    (∀ l : List Nat, prettyLabel (prettyLabel l) = prettyLabel l) ∧
    prettyLabel (strCP "early_blight") = strCP "Early Blight" := by
  exact ⟨prettyLabel_idem, by decide⟩

/-- Claim C6: for every invocation of the acquisition flow in which
permission is denied or the user cancels the picker, the prior view state
is left entirely unchanged (so no transition to `Loading` and no clearing
of displayed results) and no inference request is issued. -/
theorem deny_cancel_leaves_state_unchanged (r : PickerResult) (s : AppState) :
    (pickStep false r s).state = s ∧
    (pickStep false r s).request = none ∧
    (pickStep false r s).outcome = .denied ∧
    (pickStep true .canceled s).state = s ∧
    (pickStep true .canceled s).request = none ∧
    (pickStep true .canceled s).outcome = .cancelled := by
  cases r <;> simp [pickStep]

/-- Claim C7: for every 2xx response with no overlay field, an empty
overlay string, or a non-string overlay, the call resolves as a success:
the prediction and (numeric) confidence are committed and the overlay is
stored as absent — never treated as a failure. -/
theorem missing_overlay_is_success (pred : Option String) (conf : ConfField)
    (err : Option String) (s : AppState) :
    ∀ g ∈ [GradField.absent, GradField.str "", GradField.nonStr],
      (resolveFetch (.resp true (some ⟨pred, conf, g, err⟩)) s).2 = .success ∧
      (resolveFetch (.resp true (some ⟨pred, conf, g, err⟩)) s).1.prediction
        = pred ∧
      (resolveFetch (.resp true (some ⟨pred, conf, g, err⟩)) s).1.confidence
        = (match conf with | .num c => some c | _ => none) ∧
      (resolveFetch (.resp true (some ⟨pred, conf, g, err⟩)) s).1.gradcamBase64
        = none := by
  intro g hg
  fin_cases hg <;> refine ⟨rfl, rfl, rfl, ?_⟩ <;> rfl

/-- Witness for C7: the spec scenario — a response carrying
`prediction:"tomato_blight"` and `confidence:0.87` but no overlay field
resolves as a success with an absent overlay. -/
theorem missing_overlay_is_success_witness :
    (resolveFetch
      (.resp true (some ⟨some "tomato_blight", .num (.val (87/100)),
        .absent, none⟩)) initState).2 = .success ∧
    (resolveFetch
      (.resp true (some ⟨some "tomato_blight", .num (.val (87/100)),
        .absent, none⟩)) initState).1.gradcamBase64 = none := by
  have h := missing_overlay_is_success (some "tomato_blight")
    (.num (.val (87/100))) none initState GradField.absent (by simp)
  exact ⟨h.1, h.2.2.2⟩

/-- Claim C8: for every non-2xx HTTP response, the call fails as a server
rejection carrying the server-supplied message when a non-empty one is
present and the exact fallback `"Server error"` when the error field is
absent; the surfaced message is never blank; and no result field is
updated. -/
theorem server_reject_message (d : ApiBody) (s : AppState) :
    (resolveFetch (.resp false (some d)) s).1.prediction = s.prediction ∧
    (resolveFetch (.resp false (some d)) s).1.confidence = s.confidence ∧
    (resolveFetch (.resp false (some d)) s).1.gradcamBase64
      = s.gradcamBase64 ∧
    (d.error = none →
      (resolveFetch (.resp false (some d)) s).2
        = .serverRejected "Server error") ∧
    (∀ m, d.error = some m → m ≠ "" →
      (resolveFetch (.resp false (some d)) s).2 = .serverRejected m) ∧
    (∀ m, (resolveFetch (.resp false (some d)) s).2 = .serverRejected m →
      m ≠ "") := by
  refine ⟨rfl, rfl, rfl, ?_, ?_, ?_⟩
  · intro h
    simp [resolveFetch, errMessage, h]
  · intro m hm hne
    simp [resolveFetch, errMessage, hm, hne]
  · intro m hm
    have h2 : errMessage d.error = m := by
      simpa [resolveFetch] using hm
    rw [← h2]
    exact errMessage_ne_empty d.error

/-- Witness for C8: a 500-style response with no `error` field surfaces
exactly the fallback message `"Server error"`. -/
theorem server_reject_message_witness :
    (resolveFetch (.resp false (some ⟨none, .absent, .absent, none⟩))
      initState).2 = .serverRejected "Server error" :=
  (server_reject_message ⟨none, .absent, .absent, none⟩ initState).2.2.2.1 rfl

/-- Claim C9: for every successful pick whose asset lacks base64 bytes,
the flow ends in the `missingData` outcome — a category distinct from
`denied` and `cancelled` — and no inference request is dispatched. -/
theorem missing_base64_never_dispatches (uri : String) (s : AppState) :
    (pickStep true (.picked uri none) s).outcome = .missingData ∧
    (pickStep true (.picked uri none) s).request = none ∧
    PickOutcome.missingData ≠ PickOutcome.denied ∧
    PickOutcome.missingData ≠ PickOutcome.cancelled := by
  refine ⟨rfl, rfl, by decide, by decide⟩

/-- Claim C10: every inference request the client dispatches has its
`include_gradcam` field set to `true` — the flag is the constant
`includeGradcam = true`, not user-controllable input. -/
theorem dispatched_requests_request_gradcam (granted : Bool)
    (r : PickerResult) (s : AppState) (req : InferenceRequest)
    (h : (pickStep granted r s).request = some req) :
    req.include_gradcam = true ∧ includeGradcam = true := by
  refine ⟨?_, rfl⟩
  cases granted with
  | false => simp [pickStep] at h
  | true =>
    cases r with
    | canceled => simp [pickStep] at h
    | picked uri b64 =>
      cases b64 with
      | none => simp [pickStep] at h
      | some b =>
        have h' : buildRequest b = req := by simpa [pickStep] using h
        rw [← h']
        rfl

/-- Witness for C10: a concrete dispatched request carries
`include_gradcam = true`. -/
theorem dispatched_requests_request_gradcam_witness :
    (buildRequest "img").include_gradcam = true :=
  (dispatched_requests_request_gradcam true (.picked "u" (some "img"))
    initState (buildRequest "img") rfl).1

/-- Interleaved two-pick trace, step 1: pick A is confirmed and its
request dispatched. -/
def staleTraceS1 : AppState :=
  (pickStep true (.picked "uriA" (some "imgA")) initState).state

/-- Step 2: while request A is still outstanding, pick B is confirmed and
its request dispatched. -/
def staleTraceS2 : AppState :=
  (pickStep true (.picked "uriB" (some "imgB")) staleTraceS1).state

/-- Step 3: request B's response (prediction `"labelB"`) resolves first
and is committed. -/
def staleTraceS3 : AppState :=
  (resolveFetch
    (.resp true (some ⟨some "labelB", .absent, .absent, none⟩))
    staleTraceS2).1

/-- Step 4: the older request A's response (prediction `"labelA"`)
finally resolves, against the state produced by pick B. -/
def staleTraceS4 : AppState :=
  (resolveFetch
    (.resp true (some ⟨some "labelA", .absent, .absent, none⟩))
    staleTraceS3).1

/-- Claim C1 fails on the code: `sendToApi` carries no generation token
and no cancellation, so its resolution closures commit unconditionally.
In the interleaving `staleTraceS1`–`staleTraceS4` (pick B initiated while
pick A's request is outstanding, B's response resolving first), the newer
pick's committed label `"labelB"` is overwritten by the prior call's
`"labelA"` — the prior call's resolution is not discarded, violating the
stated single-flight property. -/
theorem stale_response_overwrites_newer_pick :
    staleTraceS3.prediction = some "labelB" ∧
    staleTraceS4.prediction = some "labelA" ∧
    some "labelA" ≠ some "labelB" := by
  exact ⟨rfl, rfl, by decide⟩

/-- Counterexample to claim C2: a response whose body is not JSON
(`res.json()` rejects) lands in the `catch` block, i.e. resolves exactly
like a transport failure (`networkError`), not as a server rejection with
the generic message. -/
theorem unparseable_body_not_server_rejected :
    (resolveFetch (.resp true none) initState).2 = .networkError ∧
    (resolveFetch (.resp true none) initState).2
      = (resolveFetch .netFail initState).2 ∧
    ApiOutcome.networkError ≠ ApiOutcome.serverRejected "Server error" := by
  exact ⟨rfl, rfl, by decide⟩

/-- Claim C2 as amended: for every response whose body cannot be parsed as
JSON at all (regardless of HTTP status), the call is reported through the
transport-failure path — the same "Network Error" outcome as a failed
fetch — and no result field is updated. -/
theorem unparseable_body_is_transport_failure (ok : Bool) (s : AppState) :
    (resolveFetch (.resp ok none) s).2 = .networkError ∧
    (resolveFetch (.resp ok none) s).1 = { s with loading := false } := by
  exact ⟨rfl, rfl⟩
